import Mathlib

/-!
Verification of the lobbyguard packet gate and endpoint index.

The development shallowly embeds the Rust sources:
* `ConnectionTracker` and its operations from `lobbyguard-cli/src/connection_tracker.rs`
  (DashMap/DashSet state is modelled as association lists with set-valued entries);
* the per-packet decision of `process_packets` from `lobbyguard-cli/src/packet_processor.rs`;
* the per-packet decision of `PacketGuard::run` from `lobbyguard-common/src/engine.rs`;
* the WinDivert filter strings from `lobbyguard-common/src/config.rs`,
  `lobbyguard-cli/src/filter.rs` and `lobbyguard-common/src/monitor.rs`;
* the socket-modified event handlers from `lobbyguard-cli/src/wmi_monitor.rs`.

Ports, pids, addresses and payload lengths are modelled as `Nat`: the source only
compares them for equality and set membership, never performs arithmetic on them.
-/

set_option autoImplicit false
set_option maxRecDepth 100000

namespace LobbyGuard

/-! ### Association-list map helpers (model of DashMap) -/

/-- Look up the value stored under key `k` (first matching entry). -/
def mapLookup {β : Type} (m : List (Nat × β)) (k : Nat) : Option β :=
(m.find? (fun e => e.1 == k)).map (fun e => e.2)

/-- Apply `f` to the value stored under key `k`, leaving other entries alone. -/
def mapAdjust {β : Type} (m : List (Nat × β)) (k : Nat) (f : β → β) : List (Nat × β) :=
m.map (fun e => if e.1 = k then (e.1, f e.2) else e)

/-- Delete every entry with key `k` (model of `DashMap::remove`). -/
def mapErase {β : Type} (m : List (Nat × β)) (k : Nat) : List (Nat × β) :=
m.filter (fun e => e.1 != k)

/-- Insert into a set modelled as a duplicate-free list (model of `DashSet::insert`). -/
def setInsert {α : Type} [BEq α] (a : α) (l : List α) : List α :=
if l.contains a then l else a :: l

/-! ### Endpoint Index: `ConnectionTracker` (connection_tracker.rs) -/

/-- State of `ConnectionTracker`: tracked pids, pid → set of `(local_port, remote_port)`
TCP pairs, pid → set of UDP local ports. -/
structure ConnectionTracker where
  pid_set : List Nat
  tcp_map : List (Nat × List (Nat × Nat))
  udp_map : List (Nat × List Nat)
deriving DecidableEq, Repr

/-- `ConnectionTracker::new`. -/
def ConnectionTracker.new : ConnectionTracker := ⟨[], [], []⟩

/-- `ConnectionTracker::add_process`: insert the pid into the tracked set. -/
def ConnectionTracker.add_process (t : ConnectionTracker) (pid : Nat) : ConnectionTracker :=
{ t with pid_set := setInsert pid t.pid_set }

/-- `ConnectionTracker::remove_process`: drop the pid and all of its endpoints. -/
def ConnectionTracker.remove_process (t : ConnectionTracker) (pid : Nat) : ConnectionTracker :=
{ pid_set := t.pid_set.filter (fun p => p != pid)
  tcp_map := mapErase t.tcp_map pid
  udp_map := mapErase t.udp_map pid }

/-- `ConnectionTracker::contains_process`. -/
def ConnectionTracker.contains_process (t : ConnectionTracker) (pid : Nat) : Bool :=
t.pid_set.contains pid

/-- `ConnectionTracker::add_tcp_connection`: zero-guarded insert of a port pair into
the pid's entry (created empty on demand, as `entry(pid).or_default()` does). -/
def ConnectionTracker.add_tcp_connection (t : ConnectionTracker)
    (pid local_port remote_port : Nat) : ConnectionTracker :=
if local_port == 0 || remote_port == 0 || pid == 0 then t
else
  match mapLookup t.tcp_map pid with
  | some _ => { t with tcp_map := mapAdjust t.tcp_map pid (setInsert (local_port, remote_port)) }
  | none => { t with tcp_map := t.tcp_map ++ [(pid, [(local_port, remote_port)])] }

/-- `ConnectionTracker::remove_tcp_connection`: zero-guarded removal of a port pair
from the pid's entry, a no-op when the pid has no entry. -/
def ConnectionTracker.remove_tcp_connection (t : ConnectionTracker)
    (pid local_port remote_port : Nat) : ConnectionTracker :=
if local_port == 0 || remote_port == 0 || pid == 0 then t
else
  match mapLookup t.tcp_map pid with
  | some _ => { t with tcp_map := mapAdjust t.tcp_map pid (fun s => s.erase (local_port, remote_port)) }
  | none => t

/-- `ConnectionTracker::add_udp_endpoint`. -/
def ConnectionTracker.add_udp_endpoint (t : ConnectionTracker)
    (pid local_port : Nat) : ConnectionTracker :=
if local_port == 0 || pid == 0 then t
else
  match mapLookup t.udp_map pid with
  | some _ => { t with udp_map := mapAdjust t.udp_map pid (setInsert local_port) }
  | none => { t with udp_map := t.udp_map ++ [(pid, [local_port])] }

/-- `ConnectionTracker::remove_udp_endpoint`. -/
def ConnectionTracker.remove_udp_endpoint (t : ConnectionTracker)
    (pid local_port : Nat) : ConnectionTracker :=
if local_port == 0 || pid == 0 then t
else
  match mapLookup t.udp_map pid with
  | some _ => { t with udp_map := mapAdjust t.udp_map pid (fun s => s.erase local_port) }
  | none => t

/-- The `udp_map.view(pid, |_, ports| ports.contains(&local_port)).unwrap_or(false)` probe. -/
def udpView (m : List (Nat × List Nat)) (pid local_port : Nat) : Bool :=
match mapLookup m pid with
| some ports => ports.contains local_port
| none => false

/-- The `tcp_map.view(pid, |_, ports| ports.contains(&(a, b)) || ports.contains(&(b, a)))
.unwrap_or(false)` probe. -/
def tcpView (m : List (Nat × List (Nat × Nat))) (pid src_port dst_port : Nat) : Bool :=
match mapLookup m pid with
| some ports => ports.contains (src_port, dst_port) || ports.contains (dst_port, src_port)
| none => false

/-- `ConnectionTracker::is_tracked_udp`: some tracked pid has the local port registered. -/
def ConnectionTracker.is_tracked_udp (t : ConnectionTracker) (local_port : Nat) : Bool :=
if local_port == 0 then false
else t.pid_set.any (fun pid => udpView t.udp_map pid local_port)

/-- `ConnectionTracker::is_tracked_tcp`: some tracked pid has the port pair registered
in either orientation. -/
def ConnectionTracker.is_tracked_tcp (t : ConnectionTracker) (src_port dst_port : Nat) : Bool :=
if src_port == 0 || dst_port == 0 then false
else t.pid_set.any (fun pid => tcpView t.tcp_map pid src_port dst_port)

/-! ### Shared packet-size constants (config.rs / packet_processor.rs / engine.rs) -/

/-- `HEARTBEAT_SIZES: [usize; 3] = [12, 18, 63]`. -/
def HEARTBEAT_SIZES : List Nat := [12, 18, 63]

/-- `MATCHMAKING_SIZES: [usize; 4] = [191, 207, 223, 239]`. -/
def MATCHMAKING_SIZES : List Nat := [191, 207, 223, 239]

/-- `FilterMode` from config.rs. -/
inductive FilterMode where
  | Solo
  | Locked
  | Disconnect
deriving DecidableEq, Repr, BEq

/-! ### CLI packet gate: per-packet decision of `process_packets` (packet_processor.rs)

One loop iteration of `process_packets` receives a diverted buffer, parses it and
produces three observable effects: whether the packet is re-injected (`send`),
whether it is written to the pcap archive (`capture` and a writer present), and
whether the parse-failure error log fires. The input is modelled as the outcome
of the `SlicedPacket::from_ip` parse. An address only matters through
`is_global`, so each side carries that bit ([feature(ip)] `IpAddr::is_global`). -/

/-- A parsed UDP packet as seen by the CLI gate. -/
structure UdpPacket where
  src_global : Bool
  dst_global : Bool
  src_port : Nat
  dst_port : Nat
  payload_len : Nat
deriving DecidableEq, Repr

/-- Parse outcome of one diverted buffer in `process_packets`. -/
inductive CliInput where
  /-- `SlicedPacket::from_ip` failed. -/
  | parseFail
  /-- parsed, but `net` is neither IPv4 nor IPv6. -/
  | nonIp
  /-- parsed, but `transport` is neither UDP nor TCP. -/
  | nonTransport
  /-- a UDP packet. -/
  | udp (p : UdpPacket)
  /-- a TCP packet with its source and destination ports. -/
  | tcp (src_port dst_port : Nat)
deriving DecidableEq, Repr

/-- Observable effects of one `process_packets` iteration. -/
structure CliOutcome where
  /-- the packet was re-injected via `network_divert.send`. -/
  reinject : Bool
  /-- the `capture` flag gating the pcap write. -/
  capture : Bool
  /-- the parse-failure `error!` log fired. -/
  error_logged : Bool
deriving DecidableEq, Repr

/-- `local_port` computation in the UDP arm of `process_packets`: the side whose
address is not globally routable; `0` when both sides are global. -/
def localPort (p : UdpPacket) : Nat :=
if !p.src_global then p.src_port
else if !p.dst_global then p.dst_port
else 0

/-- One iteration of the `process_packets` loop (packet_processor.rs, after `recv`). -/
def process_packet (t : ConnectionTracker) (inp : CliInput) : CliOutcome :=
match inp with
| .parseFail => ⟨false, false, true⟩
| .nonIp => ⟨false, false, false⟩
| .nonTransport => ⟨false, false, false⟩
| .udp p =>
  let local_port := localPort p
  let is_process := t.is_tracked_udp local_port
  let matching_port := local_port == 6672
  ⟨!is_process || (matching_port && HEARTBEAT_SIZES.contains p.payload_len), is_process, false⟩
| .tcp src_port dst_port =>
  let is_process := t.is_tracked_tcp src_port dst_port
  ⟨true, is_process, false⟩

/-- The CLI gate's tracked bit: defined for UDP and TCP inputs only. -/
def cliTrackedBit (t : ConnectionTracker) : CliInput → Option Bool
| .udp p => some (t.is_tracked_udp (localPort p))
| .tcp s d => some (t.is_tracked_tcp s d)
| _ => none

/-- The pcap write in `process_packets` happens iff the capture flag is set and a
writer was successfully created. -/
def archive_written (writer_present : Bool) (o : CliOutcome) : Bool :=
writer_present && o.capture

/-! ### Engine packet gate: per-packet decision of `PacketGuard::run` (engine.rs) -/

/-- Pass/drop decision of the gate on one packet. -/
inductive Decision where
  | pass
  | drop
deriving DecidableEq, Repr

/-- `FlowKey` from flow.rs, specialised to the IPv4 addresses the engine builds. -/
structure FlowKey where
  local_addr : Nat
  local_port : Nat
  remote_addr : Nat
  remote_port : Nat
deriving DecidableEq, Repr, BEq

/-- Transport-parse outcome inside `PacketGuard::run`: UDP slice, else TCP slice,
else the `(0, 0, false)` triple. -/
inductive EngineTransport where
  | udp (src_port dst_port payload_len : Nat)
  | tcp (src_port dst_port : Nat)
  | unparsed
deriving DecidableEq, Repr

/-- A packet whose `Ipv4Slice` parse succeeded. -/
structure EngineIpv4 where
  src_addr : Nat
  dst_addr : Nat
  transport : EngineTransport
deriving DecidableEq, Repr

/-- Parse outcome of one diverted buffer in `PacketGuard::run`. -/
inductive EnginePacket where
  | ipv4 (p : EngineIpv4)
  /-- `Ipv4Slice::from_slice` failed. -/
  | notIpv4
deriving DecidableEq, Repr

/-- The `(src_port, dst_port, is_udp)` triple computed by `PacketGuard::run`. -/
def transportPorts : EngineTransport → Nat × Nat × Bool
| .udp s d _ => (s, d, true)
| .tcp s d => (s, d, false)
| .unparsed => (0, 0, false)

/-- UDP payload length re-read by `PacketGuard::run` when `is_udp`. -/
def udpPayloadLen : EngineTransport → Nat
| .udp _ _ l => l
| _ => 0

/-- The final `should_pass` match of `PacketGuard::run` on `filter_mode`. -/
def policyDecision (filter_mode : FilterMode) (payload_len : Nat) : Decision :=
match filter_mode with
| .Solo => if HEARTBEAT_SIZES.contains payload_len then .pass else .drop
| .Locked => if MATCHMAKING_SIZES.contains payload_len then .drop else .pass
| .Disconnect => .drop

/-- One iteration of the `PacketGuard::run` loop (engine.rs): decide pass or drop
for a received packet, given the flow map and the current filter mode. -/
def PacketGuard.run_decision (gta_flows : List FlowKey) (filter_mode : FilterMode)
    (pkt : EnginePacket) : Decision :=
match pkt with
| .notIpv4 => policyDecision filter_mode 0
| .ipv4 p =>
  let tp := transportPorts p.transport
  let src_port := tp.1
  let dst_port := tp.2.1
  let is_udp := tp.2.2
  if src_port != 0 then
    let key : FlowKey := ⟨p.src_addr, src_port, p.dst_addr, dst_port⟩
    let rev_key : FlowKey := ⟨p.dst_addr, dst_port, p.src_addr, src_port⟩
    if !gta_flows.isEmpty && !gta_flows.contains key && !gta_flows.contains rev_key then
      .pass
    else if filter_mode == .Disconnect then
      .drop
    else
      policyDecision filter_mode (if is_udp then udpPayloadLen p.transport else 0)
  else
    policyDecision filter_mode 0

/-- The spec's flow-set tracked bit for the engine: probe the flow map with the
packet's tuple in both orientations; tracked iff either hits. -/
def engineTracked (gta_flows : List FlowKey) (p : EngineIpv4) : Bool :=
let tp := transportPorts p.transport
gta_flows.contains ⟨p.src_addr, tp.1, p.dst_addr, tp.2.1⟩ ||
  gta_flows.contains ⟨p.dst_addr, tp.2.1, p.src_addr, tp.1⟩

/-! ### WinDivert filter strings (config.rs, filter.rs, monitor.rs) -/

/-- `FilterMode::to_divert_filter` from config.rs. -/
def FilterMode.to_divert_filter : FilterMode → String
| .Solo | .Locked => "udp.DstPort == 6672 and udp.PayloadLength > 0 and ip"
| .Disconnect => "ip"

/-- The filter string the flow layer is opened with (`WinDivert::flow` in monitor.rs). -/
def flow_layer_filter : String := "ip"

/-- `build_network_filter` from filter.rs: the `format!` string with its
line-continuation backslashes resolved, the placeholder replaced by the TCP
clause (empty when `capture_tcp` is off). -/
def build_network_filter (capture_tcp : Bool) : String :=
let tcp_filter := if capture_tcp then
  "or (tcp ? ((tcp.DstPort == 80 or tcp.DstPort == 443 or tcp.SrcPort == 80 or tcp.SrcPort == 443) and tcp.PayloadLength > 0) : false)"
else ""
"(udp ? ((udp.SrcPort == 6672 or udp.DstPort == 6672 or (udp.SrcPort >= 61455 and udp.SrcPort <= 61458) or (udp.DstPort >= 61455 and udp.DstPort <= 61458)) and udp.PayloadLength > 0) : false) "
  ++ tcp_filter ++ " and (ip or ipv6)"

/-- The Solo/Locked UDP-only filter string as listed in the spec (§6). -/
def specSoloLockedFilter : String := "udp.DstPort == 6672 and udp.PayloadLength > 0 and ip"

/-- The Disconnect filter string as listed in the spec (§6). -/
def specDisconnectFilter : String := "ip"

/-- The flow-layer filter string as listed in the spec (§6). -/
def specFlowFilter : String := "ip"

/-- The composite UDP+TCP filter string as listed in the spec (§6). -/
def specCompositeFilter : String :=
"(udp ? ((udp.SrcPort == 6672 or udp.DstPort == 6672 or (udp.SrcPort >= 61455 and udp.SrcPort <= 61458) or (udp.DstPort >= 61455 and udp.DstPort <= 61458)) and udp.PayloadLength > 0) : false) or (tcp ? ((tcp.DstPort == 80 or tcp.DstPort == 443 or tcp.SrcPort == 80 or tcp.SrcPort == 443) and tcp.PayloadLength > 0) : false) and (ip or ipv6)"

/-! ### Socket-modified event handlers (wmi_monitor.rs) -/

/-- A `MSFT_NetUDPEndpoint` instance as carried by a WMI event. -/
structure UdpInstance where
  owning_process : Nat
  local_port : Nat
deriving DecidableEq, Repr

/-- A `MSFT_NetTCPConnection` instance as carried by a WMI event. -/
structure TcpInstance where
  owning_process : Nat
  local_port : Nat
  remote_port : Nat
deriving DecidableEq, Repr

/-- The `udp_update_events` arm of `run_wmi_monitor`: when the previous instance's
pid is tracked, remove the previous endpoint, then add the target endpoint when
its pid is tracked. -/
def handle_udp_modify (t : ConnectionTracker) (previous target : UdpInstance) : ConnectionTracker :=
if t.contains_process previous.owning_process then
  let t1 := t.remove_udp_endpoint previous.owning_process previous.local_port
  if t1.contains_process target.owning_process then
    t1.add_udp_endpoint target.owning_process target.local_port
  else t1
else t

/-- The `tcp_update_events` arm of `run_wmi_monitor`: same shape as the UDP arm,
but additionally guarded by the owning pid having changed. -/
def handle_tcp_modify (t : ConnectionTracker) (previous target : TcpInstance) : ConnectionTracker :=
if previous.owning_process != target.owning_process
    && t.contains_process previous.owning_process then
  let t1 := t.remove_tcp_connection previous.owning_process previous.local_port previous.remote_port
  if t1.contains_process target.owning_process then
    t1.add_tcp_connection target.owning_process target.local_port target.remote_port
  else t1
else t

/-! ### Helper lemmas on the map model -/

theorem any_congr_fun {α : Type} (l : List α) (f g : α → Bool) (h : ∀ x, f x = g x) :
    l.any f = l.any g := by
induction l with
| nil => rfl
| cons x xs ih => simp [List.any_cons, h x, ih]

theorem mapLookup_nil {β : Type} (k : Nat) : mapLookup ([] : List (Nat × β)) k = none := rfl

theorem mapLookup_cons {β : Type} (e : Nat × β) (m : List (Nat × β)) (k : Nat) :
    mapLookup (e :: m) k = if e.1 == k then some e.2 else mapLookup m k := by
cases h : e.1 == k <;> simp [mapLookup, List.find?, h]

theorem mapLookup_erase_self {β : Type} (m : List (Nat × β)) (k : Nat) :
    mapLookup (mapErase m k) k = none := by
induction m with
| nil => rfl
| cons e tl ih =>
  unfold mapErase at ih ⊢
  cases h : e.1 == k
  · have hb : (e.1 != k) = true := by simp [bne, h]
    simp [List.filter_cons, hb, mapLookup_cons, h, ih]
  · have hb : (e.1 != k) = false := by simp [bne, h]
    simp [List.filter_cons, hb, ih]

theorem mapLookup_append {β : Type} (m l : List (Nat × β)) (k : Nat) :
    mapLookup (m ++ l) k =
      match mapLookup m k with
      | some v => some v
      | none => mapLookup l k := by
induction m with
| nil => simp [mapLookup_nil]
| cons e tl ih => cases h : e.1 == k <;> simp [mapLookup_cons, h, ih]

theorem mapLookup_adjust_self {β : Type} (m : List (Nat × β)) (k : Nat) (f : β → β) :
    mapLookup (mapAdjust m k f) k = (mapLookup m k).map f := by
induction m with
| nil => rfl
| cons e tl ih =>
  unfold mapAdjust at ih ⊢
  by_cases h : e.1 = k
  · simp [List.map_cons, h, mapLookup_cons]
  · have hb : (e.1 == k) = false := by simpa using h
    simp [List.map_cons, h, mapLookup_cons, hb, ih]

theorem mapLookup_adjust_ne {β : Type} (m : List (Nat × β)) (k j : Nat) (f : β → β)
    (hjk : j ≠ k) : mapLookup (mapAdjust m k f) j = mapLookup m j := by
induction m with
| nil => rfl
| cons e tl ih =>
  unfold mapAdjust at ih ⊢
  by_cases h : e.1 = k
  · have hkj : ¬ k = j := fun hc => hjk hc.symm
    simp [List.map_cons, h, mapLookup_cons, hkj, ih]
  · cases hb : e.1 == j <;> simp [List.map_cons, h, mapLookup_cons, hb, ih]

theorem mapAdjust_comp {β : Type} (m : List (Nat × β)) (k : Nat) (f g : β → β) :
    mapAdjust (mapAdjust m k f) k g = mapAdjust m k (fun v => g (f v)) := by
induction m with
| nil => rfl
| cons e tl ih =>
  unfold mapAdjust at ih ⊢
  by_cases h : e.1 = k <;> simp [List.map_cons, h, ih]

theorem mapAdjust_of_lookup_none {β : Type} (m : List (Nat × β)) (k : Nat) (f : β → β)
    (h : mapLookup m k = none) : mapAdjust m k f = m := by
induction m with
| nil => rfl
| cons e tl ih =>
  rw [mapLookup_cons] at h
  cases hb : e.1 == k
  · rw [hb] at h
    simp only [Bool.false_eq_true, if_false] at h
    have hne : ¬ e.1 = k := by simpa using hb
    unfold mapAdjust at ih ⊢
    simp [List.map_cons, hne, ih h]
  · rw [hb] at h
    simp at h

/-! ### Structural lemmas on the tracker operations -/

theorem add_udp_pid_set (t : ConnectionTracker) (p q : Nat) :
    (t.add_udp_endpoint p q).pid_set = t.pid_set := by
unfold ConnectionTracker.add_udp_endpoint
split
· rfl
· split <;> rfl

theorem add_udp_tcp_map (t : ConnectionTracker) (p q : Nat) :
    (t.add_udp_endpoint p q).tcp_map = t.tcp_map := by
unfold ConnectionTracker.add_udp_endpoint
split
· rfl
· split <;> rfl

theorem remove_udp_pid_set (t : ConnectionTracker) (p q : Nat) :
    (t.remove_udp_endpoint p q).pid_set = t.pid_set := by
unfold ConnectionTracker.remove_udp_endpoint
split
· rfl
· split <;> rfl

theorem remove_udp_tcp_map (t : ConnectionTracker) (p q : Nat) :
    (t.remove_udp_endpoint p q).tcp_map = t.tcp_map := by
unfold ConnectionTracker.remove_udp_endpoint
split
· rfl
· split <;> rfl

theorem remove_tcp_pid_set (t : ConnectionTracker) (p a b : Nat) :
    (t.remove_tcp_connection p a b).pid_set = t.pid_set := by
unfold ConnectionTracker.remove_tcp_connection
split
· rfl
· split <;> rfl

theorem contains_process_remove_udp (t : ConnectionTracker) (p q x : Nat) :
    (t.remove_udp_endpoint p q).contains_process x = t.contains_process x := by
unfold ConnectionTracker.contains_process
rw [remove_udp_pid_set]

theorem contains_process_remove_tcp (t : ConnectionTracker) (p a b x : Nat) :
    (t.remove_tcp_connection p a b).contains_process x = t.contains_process x := by
unfold ConnectionTracker.contains_process
rw [remove_tcp_pid_set]

/-- `is_tracked_udp` only observes the udp map through `udpView`. -/
theorem is_tracked_udp_congr (ps : List Nat) (tm : List (Nat × List (Nat × Nat)))
    (m1 m2 : List (Nat × List Nat)) (port : Nat)
    (h : ∀ j, udpView m1 j port = udpView m2 j port) :
    ConnectionTracker.is_tracked_udp ⟨ps, tm, m1⟩ port =
      ConnectionTracker.is_tracked_udp ⟨ps, tm, m2⟩ port := by
unfold ConnectionTracker.is_tracked_udp
split
· rfl
· exact any_congr_fun ps _ _ h

/-! ### C4: gate behaviour on unparsable packets -/

/-- C4 counterexample: at the concrete input of an unparsable diverted buffer, the
CLI gate logs the parse error but does not re-inject the packet: the decision is
drop, not the pass-through the claim states. -/
theorem c4_counterexample :
    (process_packet ConnectionTracker.new .parseFail).error_logged = true ∧
    (process_packet ConnectionTracker.new .parseFail).reinject = false := by
exact ⟨rfl, rfl⟩

/-- C4 (amended): for every diverted packet whose headers fail to parse, the gate
logs at error level and the packet is dropped (never re-injected), regardless of
the tracker state. -/
theorem c4_parse_error_amended (t : ConnectionTracker) :
    (process_packet t .parseFail).error_logged = true ∧
    (process_packet t .parseFail).reinject = false := by
exact ⟨rfl, rfl⟩

/-! ### C5: process removal purges all endpoints of the pid -/

/-- C5: after `remove_process(pid)`, the pid owns no endpoint in the Index: its udp
and tcp entries are gone, for every starting state; in particular, after
`add_process(1234); add_udp(1234,6672); add_tcp(1234,50000,443); remove_process(1234)`
both `is_tracked_udp(6672)` and `is_tracked_tcp(50000,443)` are false. -/
theorem c5_remove_process_purges :
    (∀ (t : ConnectionTracker) (pid : Nat),
      mapLookup (t.remove_process pid).udp_map pid = none ∧
      mapLookup (t.remove_process pid).tcp_map pid = none) ∧
    ((((ConnectionTracker.new.add_process 1234).add_udp_endpoint 1234
        6672).add_tcp_connection 1234 50000 443).remove_process 1234).is_tracked_udp 6672
      = false ∧
    ((((ConnectionTracker.new.add_process 1234).add_udp_endpoint 1234
        6672).add_tcp_connection 1234 50000 443).remove_process 1234).is_tracked_tcp 50000 443
      = false := by
refine ⟨fun t pid => ⟨?_, ?_⟩, by decide, by decide⟩
· exact mapLookup_erase_self t.udp_map pid
· exact mapLookup_erase_self t.tcp_map pid

/-! ### C6: port-pair symmetry of `is_tracked_tcp` -/

/-- C6: `is_tracked_tcp(a, b)` equals `is_tracked_tcp(b, a)` in every Index state,
and after `add_tcp(1234, 50000, 443)` the query `is_tracked_tcp(443, 50000)` is true. -/
theorem c6_tcp_symmetry :
    (∀ (t : ConnectionTracker) (a b : Nat), t.is_tracked_tcp a b = t.is_tracked_tcp b a) ∧
    ((ConnectionTracker.new.add_process 1234).add_tcp_connection 1234 50000
        443).is_tracked_tcp 443 50000 = true := by
refine ⟨fun t a b => ?_, by decide⟩
unfold ConnectionTracker.is_tracked_tcp
rw [Bool.or_comm (b == 0) (a == 0)]
split
· rfl
· refine any_congr_fun t.pid_set _ _ fun pid => ?_
  unfold tcpView
  cases mapLookup t.tcp_map pid
  · rfl
  · exact Bool.or_comm _ _

/-! ### C10: the CLI gate passes every TCP packet -/

/-- C10: in the CLI packet gate every TCP packet is re-injected regardless of the
tracked bit, and the tracked bit only feeds the capture flag that gates the
archive write. -/
theorem c10_tcp_always_pass :
    ∀ (t : ConnectionTracker) (s d : Nat) (w : Bool),
      (process_packet t (.tcp s d)).reinject = true ∧
      (process_packet t (.tcp s d)).capture = t.is_tracked_tcp s d ∧
      archive_written w (process_packet t (.tcp s d)) = (w && t.is_tracked_tcp s d) := by
intro t s d w
exact ⟨rfl, rfl, rfl⟩

/-! ### C8: the emitted WinDivert filter strings -/

/-- C8 counterexample: with `--capture-tcp` off (the CLI default), the network gate
emits a filter string (the composite with an empty TCP clause) that is none of the
four strings listed in the spec. -/
theorem c8_counterexample :
    build_network_filter false ≠ specCompositeFilter ∧
    build_network_filter false ≠ specSoloLockedFilter ∧
    build_network_filter false ≠ specDisconnectFilter ∧
    build_network_filter false ≠ specFlowFilter := by
refine ⟨?_, ?_, ?_, ?_⟩ <;> decide

/-- C8 (amended): Solo and Locked emit the listed UDP-only string, Disconnect and
the flow layer emit "ip", and the network gate emits the listed composite string
when TCP capture is on; with TCP capture off it emits a fifth string, the
composite with the TCP clause replaced by nothing (leaving a double space). -/
theorem c8_filter_strings_amended :
    FilterMode.Solo.to_divert_filter = specSoloLockedFilter ∧
    FilterMode.Locked.to_divert_filter = specSoloLockedFilter ∧
    FilterMode.Disconnect.to_divert_filter = specDisconnectFilter ∧
    flow_layer_filter = specFlowFilter ∧
    build_network_filter true = specCompositeFilter ∧
    build_network_filter false =
      "(udp ? ((udp.SrcPort == 6672 or udp.DstPort == 6672 or (udp.SrcPort >= 61455 and udp.SrcPort <= 61458) or (udp.DstPort >= 61455 and udp.DstPort <= 61458)) and udp.PayloadLength > 0) : false)  and (ip or ipv6)" := by
refine ⟨rfl, rfl, rfl, rfl, ?_, ?_⟩ <;> decide

/-! ### C1: untracked packets and the gates -/

/-- C1 counterexample: with an empty flow map the engine's tracked probe is false
for every packet, yet under the Disconnect policy the engine drops the packet
(it treats every diverted packet as guarded when the flow map is empty). -/
theorem c1_counterexample :
    engineTracked [] ⟨1, 2, .udp 6672 40000 18⟩ = false ∧
    PacketGuard.run_decision [] .Disconnect (.ipv4 ⟨1, 2, .udp 6672 40000 18⟩) = .drop := by
exact ⟨by decide, by decide⟩

/-- C1 (amended): an untracked packet is always passed by the engine under every
policy provided the flow map is non-empty and the packet parsed as IPv4 with a
non-zero source port; and the CLI gate re-injects every packet whose tracked bit
is false. When the flow map is empty the engine instead applies the policy to
every packet as if it were tracked. -/
theorem c1_untracked_pass_amended :
    (∀ (flows : List FlowKey) (mode : FilterMode) (p : EngineIpv4),
        flows.isEmpty = false → engineTracked flows p = false →
        (transportPorts p.transport).1 ≠ 0 →
        PacketGuard.run_decision flows mode (.ipv4 p) = .pass) ∧
    (∀ (t : ConnectionTracker) (inp : CliInput),
        cliTrackedBit t inp = some false → (process_packet t inp).reinject = true) := by
constructor
· intro flows mode p hne htr hsp
  obtain ⟨sa, da, tr⟩ := p
  cases tr with
  | udp s d l =>
    simp only [engineTracked, transportPorts] at htr hsp
    have hs' : (s != 0) = true := by simpa using hsp
    rcases Bool.or_eq_false_iff.mp htr with ⟨h1, h2⟩
    simp [PacketGuard.run_decision, transportPorts, hs', hne, h1, h2]
  | tcp s d =>
    simp only [engineTracked, transportPorts] at htr hsp
    have hs' : (s != 0) = true := by simpa using hsp
    rcases Bool.or_eq_false_iff.mp htr with ⟨h1, h2⟩
    simp [PacketGuard.run_decision, transportPorts, hs', hne, h1, h2]
  | unparsed =>
    simp only [transportPorts] at hsp
    exact absurd rfl hsp
· intro t inp h
  cases inp with
  | parseFail => simp [cliTrackedBit] at h
  | nonIp => simp [cliTrackedBit] at h
  | nonTransport => simp [cliTrackedBit] at h
  | udp p =>
    simp only [cliTrackedBit, Option.some.injEq] at h
    simp [process_packet, h]
  | tcp s d => rfl

/-- C1 witness: a non-empty flow map, an untracked UDP packet passed under
Disconnect by the engine, and an untracked UDP packet re-injected by the CLI gate. -/
theorem c1_untracked_pass_witness :
    (([⟨10, 9999, 20, 8888⟩] : List FlowKey).isEmpty = false ∧
      engineTracked [⟨10, 9999, 20, 8888⟩] ⟨1, 2, .udp 6672 40000 18⟩ = false ∧
      (transportPorts (.udp 6672 40000 18)).1 ≠ 0) ∧
    PacketGuard.run_decision [⟨10, 9999, 20, 8888⟩] .Disconnect
        (.ipv4 ⟨1, 2, .udp 6672 40000 18⟩) = .pass ∧
    cliTrackedBit ConnectionTracker.new (.udp ⟨false, true, 6672, 44001, 18⟩) = some false ∧
    (process_packet ConnectionTracker.new (.udp ⟨false, true, 6672, 44001, 18⟩)).reinject
      = true :=
⟨⟨by decide, by decide, by decide⟩,
  c1_untracked_pass_amended.1 [⟨10, 9999, 20, 8888⟩] .Disconnect ⟨1, 2, .udp 6672 40000 18⟩
    (by decide) (by decide) (by decide),
  by decide,
  c1_untracked_pass_amended.2 ConnectionTracker.new (.udp ⟨false, true, 6672, 44001, 18⟩)
    (by decide)⟩

/-! ### C2: Solo policy on tracked UDP packets -/

/-- C2 counterexample: a tracked UDP packet of heartbeat size 18 whose local port
is 5555 (its remote port is 6672, so it even matches the Solo kernel filter's
`udp.DstPort == 6672`) is passed by the engine under Solo, while the claim
requires every tracked UDP packet whose local port differs from 6672 to be
dropped: the engine's Solo arm checks only the payload size, never a port. -/
theorem c2_counterexample :
    engineTracked [⟨10, 5555, 20, 6672⟩] ⟨10, 20, .udp 5555 6672 18⟩ = true ∧
    (5555 : Nat) ≠ 6672 ∧
    PacketGuard.run_decision [⟨10, 5555, 20, 6672⟩] .Solo
      (.ipv4 ⟨10, 20, .udp 5555 6672 18⟩) = .pass := by
exact ⟨by decide, by decide, by decide⟩

/-- C2 (amended): in the CLI gate a tracked UDP packet is re-injected iff its
local port is 6672 and its payload size is a heartbeat size {12, 18, 63}; the
engine's Solo arm instead passes a tracked UDP packet iff its payload size is a
heartbeat size, with no port condition (the matchmaking-port restriction comes
from the kernel filter string, not from the decision procedure). -/
theorem c2_solo_amended :
    (∀ (t : ConnectionTracker) (p : UdpPacket),
        t.is_tracked_udp (localPort p) = true →
        ((process_packet t (.udp p)).reinject = true ↔
          (localPort p = 6672 ∧ HEARTBEAT_SIZES.contains p.payload_len = true))) ∧
    (∀ (flows : List FlowKey) (sa da s d l : Nat),
        s ≠ 0 → engineTracked flows ⟨sa, da, .udp s d l⟩ = true →
        PacketGuard.run_decision flows .Solo (.ipv4 ⟨sa, da, .udp s d l⟩) =
          (if HEARTBEAT_SIZES.contains l then .pass else .drop)) := by
constructor
· intro t p h
  simp [process_packet, h, Bool.and_eq_true]
· intro flows sa da s d l hs htr
  have hs' : (s != 0) = true := by simpa using hs
  simp only [engineTracked, transportPorts] at htr
  have hsd : (FilterMode.Solo == FilterMode.Disconnect) = false := by decide
  cases hc1 : flows.contains (⟨sa, s, da, d⟩ : FlowKey) <;>
    cases hc2 : flows.contains (⟨da, d, sa, s⟩ : FlowKey) <;>
      simp_all [PacketGuard.run_decision, transportPorts, policyDecision, udpPayloadLen]

/-- C2 witness: in the CLI gate, tracked pid 1234 on udp port 6672 with a
heartbeat of payload size 18 arriving on local port 6672 satisfies both sides of
the equivalence; in the engine, a tracked UDP packet of payload size 18 on ports
9999/8888 is passed under Solo. -/
theorem c2_solo_witness :
    (ConnectionTracker.is_tracked_udp ⟨[1234], [], [(1234, [6672])]⟩
        (localPort ⟨false, true, 6672, 44001, 18⟩) = true ∧
      ((process_packet ⟨[1234], [], [(1234, [6672])]⟩
            (.udp ⟨false, true, 6672, 44001, 18⟩)).reinject = true ↔
        (localPort ⟨false, true, 6672, 44001, 18⟩ = 6672 ∧
          HEARTBEAT_SIZES.contains 18 = true))) ∧
    ((9999 : Nat) ≠ 0 ∧
      engineTracked [⟨10, 9999, 20, 8888⟩] ⟨10, 20, .udp 9999 8888 18⟩ = true ∧
      PacketGuard.run_decision [⟨10, 9999, 20, 8888⟩] .Solo
          (.ipv4 ⟨10, 20, .udp 9999 8888 18⟩) =
        (if HEARTBEAT_SIZES.contains 18 then .pass else .drop)) :=
⟨⟨by decide,
    c2_solo_amended.1 ⟨[1234], [], [(1234, [6672])]⟩ ⟨false, true, 6672, 44001, 18⟩
      (by decide)⟩,
  ⟨by decide, by decide,
    c2_solo_amended.2 [⟨10, 9999, 20, 8888⟩] 10 20 9999 8888 18 (by decide) (by decide)⟩⟩

/-! ### C3: Locked policy on tracked UDP packets (engine) -/

/-- C3 counterexample: a tracked UDP packet with payload size 207 on ports 9999 and
8888 (neither side the matchmaking port 6672) is dropped by the engine under
Locked, while the claim requires every packet whose local port is not 6672 to
pass: the engine checks only the payload size, never a port. -/
theorem c3_counterexample :
    engineTracked [⟨10, 9999, 20, 8888⟩] ⟨10, 20, .udp 9999 8888 207⟩ = true ∧
    (9999 ≠ 6672 ∧ 8888 ≠ 6672) ∧
    PacketGuard.run_decision [⟨10, 9999, 20, 8888⟩] .Locked
      (.ipv4 ⟨10, 20, .udp 9999 8888 207⟩) = .drop := by
exact ⟨by decide, ⟨by decide, by decide⟩, by decide⟩

/-- C3 (amended): under the Locked policy the engine drops a tracked UDP packet iff
its payload size is a matchmaking size {191, 207, 223, 239}; the gate imposes no
port condition (the matchmaking-port restriction comes from the kernel filter
string, not from the decision procedure). -/
theorem c3_locked_amended (flows : List FlowKey) (sa da s d l : Nat)
    (hs : s ≠ 0) (htr : engineTracked flows ⟨sa, da, .udp s d l⟩ = true) :
    PacketGuard.run_decision flows .Locked (.ipv4 ⟨sa, da, .udp s d l⟩) =
      (if MATCHMAKING_SIZES.contains l then .drop else .pass) := by
have hs' : (s != 0) = true := by simpa using hs
simp only [engineTracked, transportPorts] at htr
have hld : (FilterMode.Locked == FilterMode.Disconnect) = false := by decide
cases hc1 : flows.contains (⟨sa, s, da, d⟩ : FlowKey) <;>
  cases hc2 : flows.contains (⟨da, d, sa, s⟩ : FlowKey) <;>
    simp_all [PacketGuard.run_decision, transportPorts, policyDecision, udpPayloadLen]

/-- C3 witness: a tracked UDP packet of payload size 12 (not a matchmaking size)
passes under Locked. -/
theorem c3_locked_witness :
    (9999 ≠ 0 ∧ engineTracked [⟨10, 9999, 20, 8888⟩] ⟨10, 20, .udp 9999 8888 12⟩ = true) ∧
    PacketGuard.run_decision [⟨10, 9999, 20, 8888⟩] .Locked
        (.ipv4 ⟨10, 20, .udp 9999 8888 12⟩) =
      (if MATCHMAKING_SIZES.contains 12 then .drop else .pass) :=
⟨⟨by decide, by decide⟩,
  c3_locked_amended [⟨10, 9999, 20, 8888⟩] 10 20 9999 8888 12 (by decide) (by decide)⟩

/-! ### C7: add_udp followed by remove_udp -/

/-- C7 counterexample: starting from an Index where pid 1234 already has udp port
6672 registered, `add_udp(1234, 6672); remove_udp(1234, 6672)` deletes the
registration: the Index is observably changed (`is_tracked_udp 6672` flips from
true to false), so the round-trip does not leave every starting state unchanged. -/
theorem c7_counterexample :
    ConnectionTracker.is_tracked_udp ⟨[1234], [], [(1234, [6672])]⟩ 6672 = true ∧
    ((ConnectionTracker.add_udp_endpoint ⟨[1234], [], [(1234, [6672])]⟩ 1234
        6672).remove_udp_endpoint 1234 6672).is_tracked_udp 6672 = false ∧
    (ConnectionTracker.add_udp_endpoint ⟨[1234], [], [(1234, [6672])]⟩ 1234
        6672).remove_udp_endpoint 1234 6672 ≠ ⟨[1234], [], [(1234, [6672])]⟩ := by
exact ⟨by decide, by decide, by decide⟩

/-- C7 (amended): provided `(p, q)` is not already registered in the udp map,
`add_udp(p, q); remove_udp(p, q)` leaves the Index unchanged up to observation:
the tracked-pid set and tcp map are untouched and every `is_tracked_udp` query
answers as before (structurally, an empty entry for `p` may be left behind). If
`(p, q)` was registered, the round trip removes it. -/
theorem c7_roundtrip_amended (t : ConnectionTracker) (p q port : Nat)
    (h : udpView t.udp_map p q = false) :
    ((t.add_udp_endpoint p q).remove_udp_endpoint p q).pid_set = t.pid_set ∧
    ((t.add_udp_endpoint p q).remove_udp_endpoint p q).tcp_map = t.tcp_map ∧
    ((t.add_udp_endpoint p q).remove_udp_endpoint p q).is_tracked_udp port =
      t.is_tracked_udp port := by
obtain ⟨ps, tm, um⟩ := t
refine ⟨by rw [remove_udp_pid_set, add_udp_pid_set], by rw [remove_udp_tcp_map, add_udp_tcp_map], ?_⟩
by_cases hg : (q == 0 || p == 0) = true
· have hrt : (ConnectionTracker.add_udp_endpoint ⟨ps, tm, um⟩ p q).remove_udp_endpoint p q
      = ⟨ps, tm, um⟩ := by
    simp [ConnectionTracker.add_udp_endpoint, ConnectionTracker.remove_udp_endpoint, hg]
  rw [hrt]
· have hg' : (q == 0 || p == 0) = false := by simpa using hg
  cases hl : mapLookup um p with
  | none =>
    have h1 : ConnectionTracker.add_udp_endpoint ⟨ps, tm, um⟩ p q
        = ⟨ps, tm, um ++ [(p, [q])]⟩ := by
      simp [ConnectionTracker.add_udp_endpoint, hg', hl]
    have hl1 : mapLookup (um ++ [(p, [q])]) p = some [q] := by
      rw [mapLookup_append, hl]
      simp [mapLookup_cons]
    have h2 : (ConnectionTracker.add_udp_endpoint ⟨ps, tm, um⟩ p q).remove_udp_endpoint p q
        = ⟨ps, tm, mapAdjust (um ++ [(p, [q])]) p (fun s => s.erase q)⟩ := by
      rw [h1]
      simp [ConnectionTracker.remove_udp_endpoint, hg', hl1]
    have h3 : mapAdjust (um ++ [(p, [q])]) p (fun s => s.erase q)
        = um ++ [(p, ([] : List Nat))] := by
      have hsplit : mapAdjust (um ++ [(p, [q])]) p (fun s => s.erase q)
          = mapAdjust um p (fun s => s.erase q) ++ mapAdjust [(p, [q])] p (fun s => s.erase q) := by
        unfold mapAdjust
        exact List.map_append _ _ _
      rw [hsplit, mapAdjust_of_lookup_none um p _ hl]
      simp [mapAdjust]
    rw [h2, h3]
    refine is_tracked_udp_congr ps tm _ um port fun j => ?_
    unfold udpView
    rw [mapLookup_append]
    cases hj : mapLookup um j with
    | some s => rfl
    | none =>
      cases hpj : p == j <;> simp [mapLookup_cons, mapLookup_nil, hpj]
  | some s =>
    have hsq : s.contains q = false := by
      unfold udpView at h
      rw [hl] at h
      exact h
    have h1 : ConnectionTracker.add_udp_endpoint ⟨ps, tm, um⟩ p q
        = ⟨ps, tm, mapAdjust um p (setInsert q)⟩ := by
      simp [ConnectionTracker.add_udp_endpoint, hg', hl]
    have hl1 : mapLookup (mapAdjust um p (setInsert q)) p = some (setInsert q s) := by
      rw [mapLookup_adjust_self, hl]
      rfl
    have h2 : (ConnectionTracker.add_udp_endpoint ⟨ps, tm, um⟩ p q).remove_udp_endpoint p q
        = ⟨ps, tm, mapAdjust um p (fun v => (setInsert q v).erase q)⟩ := by
      rw [h1]
      simp [ConnectionTracker.remove_udp_endpoint, hg', hl1, mapAdjust_comp]
    rw [h2]
    refine is_tracked_udp_congr ps tm _ um port fun j => ?_
    unfold udpView
    by_cases hjp : j = p
    · subst hjp
      rw [mapLookup_adjust_self, hl]
      have hins : setInsert q s = q :: s := by
        unfold setInsert
        rw [hsq]
        rfl
      simp [hins, List.erase_cons_head]
    · rw [mapLookup_adjust_ne um p j _ hjp]

/-- C7 witness: pid 1234 tracks udp port 6672; adding and removing the unregistered
port 7000 leaves every part of the Index observably unchanged. -/
theorem c7_roundtrip_witness :
    udpView [(1234, [6672])] 1234 7000 = false ∧
    ((ConnectionTracker.add_udp_endpoint ⟨[1234], [], [(1234, [6672])]⟩ 1234
        7000).remove_udp_endpoint 1234 7000).pid_set = [1234] ∧
    ((ConnectionTracker.add_udp_endpoint ⟨[1234], [], [(1234, [6672])]⟩ 1234
        7000).remove_udp_endpoint 1234 7000).is_tracked_udp 6672 =
      ConnectionTracker.is_tracked_udp ⟨[1234], [], [(1234, [6672])]⟩ 6672 :=
⟨by decide,
  (c7_roundtrip_amended ⟨[1234], [], [(1234, [6672])]⟩ 1234 7000 6672 (by decide)).1,
  (c7_roundtrip_amended ⟨[1234], [], [(1234, [6672])]⟩ 1234 7000 6672 (by decide)).2.2⟩

/-! ### C9: socket-modified events -/

/-- C9 counterexample: a TCP socket-modified event whose previous and target
instances share the tracked owning pid 1234 is ignored by the Observer, while the
claimed remove-then-add semantics would re-key the connection from (50000, 443)
to (50001, 443); the two effects differ observably. -/
theorem c9_counterexample :
    ConnectionTracker.contains_process ⟨[1234], [(1234, [(50000, 443)])], []⟩ 1234 = true ∧
    handle_tcp_modify ⟨[1234], [(1234, [(50000, 443)])], []⟩ ⟨1234, 50000, 443⟩
        ⟨1234, 50001, 443⟩ = ⟨[1234], [(1234, [(50000, 443)])], []⟩ ∧
    (handle_tcp_modify ⟨[1234], [(1234, [(50000, 443)])], []⟩ ⟨1234, 50000, 443⟩
        ⟨1234, 50001, 443⟩).is_tracked_tcp 50001 443 = false ∧
    ((ConnectionTracker.remove_tcp_connection ⟨[1234], [(1234, [(50000, 443)])], []⟩ 1234
        50000 443).add_tcp_connection 1234 50001 443).is_tracked_tcp 50001 443 = true := by
exact ⟨by decide, by decide, by decide, by decide⟩

/-- C9 (amended): a UDP socket-modified event whose previous pid is tracked acts
as remove(previous) followed by add(target) when the target pid is tracked, and
as remove(previous) alone otherwise; a TCP socket-modified event does the same
only when the owning pid changed, and is a no-op whenever the previous and target
owning pids coincide. -/
theorem c9_modify_amended :
    (∀ (t : ConnectionTracker) (prev cur : UdpInstance),
        t.contains_process prev.owning_process = true →
        handle_udp_modify t prev cur =
          if t.contains_process cur.owning_process then
            (t.remove_udp_endpoint prev.owning_process prev.local_port).add_udp_endpoint
              cur.owning_process cur.local_port
          else t.remove_udp_endpoint prev.owning_process prev.local_port) ∧
    (∀ (t : ConnectionTracker) (prev cur : TcpInstance),
        prev.owning_process ≠ cur.owning_process →
        t.contains_process prev.owning_process = true →
        handle_tcp_modify t prev cur =
          if t.contains_process cur.owning_process then
            (t.remove_tcp_connection prev.owning_process prev.local_port
                prev.remote_port).add_tcp_connection cur.owning_process cur.local_port
              cur.remote_port
          else t.remove_tcp_connection prev.owning_process prev.local_port prev.remote_port) ∧
    (∀ (t : ConnectionTracker) (prev cur : TcpInstance),
        prev.owning_process = cur.owning_process → handle_tcp_modify t prev cur = t) := by
refine ⟨fun t prev cur h => ?_, fun t prev cur hne h => ?_, fun t prev cur he => ?_⟩
· simp [handle_udp_modify, h, contains_process_remove_udp]
· have hb : (prev.owning_process != cur.owning_process) = true := by simpa using hne
  simp [handle_tcp_modify, hb, h, contains_process_remove_tcp]
· have hb : (prev.owning_process != cur.owning_process) = false := by simpa using he
  simp [handle_tcp_modify, hb]

/-- C9 witness: a UDP modification for tracked pid 1234 moving from port 6672 to
port 7000 acts as remove(1234, 6672) followed by add(1234, 7000). -/
theorem c9_modify_witness :
    ConnectionTracker.contains_process ⟨[1234], [], [(1234, [6672])]⟩ 1234 = true ∧
    handle_udp_modify ⟨[1234], [], [(1234, [6672])]⟩ ⟨1234, 6672⟩ ⟨1234, 7000⟩ =
      (if ConnectionTracker.contains_process ⟨[1234], [], [(1234, [6672])]⟩ 1234 then
        (ConnectionTracker.remove_udp_endpoint ⟨[1234], [], [(1234, [6672])]⟩ 1234
            6672).add_udp_endpoint 1234 7000
      else ConnectionTracker.remove_udp_endpoint ⟨[1234], [], [(1234, [6672])]⟩ 1234 6672) :=
⟨by decide,
  c9_modify_amended.1 ⟨[1234], [], [(1234, [6672])]⟩ ⟨1234, 6672⟩ ⟨1234, 7000⟩ (by decide)⟩

end LobbyGuard
